import Mathlib

/-!
Verification of the StellarLend lending-protocol core.

This file gives a shallow embedding, in Lean, of the parts of the contract
source (contracts/hello-world/src/lib.rs) that the verified properties are
about: the interest-rate engine, the position ledger operations (deposit,
borrow, repay, withdraw, liquidate), the price-oracle adapter, the reserve
and fee engine, the multi-admin set and the configuration-proposal
lifecycle.  Rust i128 values are modelled as Int, with division modelled by
truncated division (Int.tdiv), which is what Rust integer division does;
u64 timestamps are modelled as Nat.  The contract storage is modelled as
explicit state records threaded through each operation, with the
unwrap-or-default reads of the source represented by the current field
values of the record.  Fallible operations return an Except value paired
with the post-state.
-/

namespace StellarLend

/-- Rust i128 division: truncation toward zero. -/
def idiv (a b : Int) : Int := Int.tdiv a b

/-- The largest i128 value, returned by the collateral-ratio helpers when a
position has no debt. -/
def i128MAX : Int := 2 ^ 127 - 1

/-- Error kinds of the protocol (the subset reachable from the embedded
operations). -/
inductive ProtocolError where
  | InvalidAmount
  | InvalidAddress
  | InsufficientCollateral
  | InsufficientCollateralRatio
  | PositionNotFound
  | NotEligibleForLiquidation
  | ProtocolPaused
  | Unauthorized
  | AlreadyExists
  | NotFound
  | InvalidOperation
  | InvalidInput
  | Unknown
deriving DecidableEq, Repr

/-- A user position: collateral, debt, separately accumulated interest, and
the last accrual timestamp. -/
structure Position where
  user : String
  collateral : Int
  debt : Int
  borrow_interest : Int
  supply_interest : Int
  last_accrual_time : Nat
deriving DecidableEq, Repr

/-- Position::new from the source: fresh position with zero interest
accumulators and last_accrual_time zero. -/
def Position.new (user : String) (collateral debt : Int) : Position :=
  { user := user
    collateral := collateral
    debt := debt
    borrow_interest := 0
    supply_interest := 0
    last_accrual_time := 0 }

/-- Interest rate configuration, all rates scaled by 1e8. -/
structure InterestRateConfig where
  base_rate : Int
  kink_utilization : Int
  multiplier : Int
  reserve_factor : Int
  rate_ceiling : Int
  rate_floor : Int
  last_update : Nat
deriving DecidableEq, Repr

/-- InterestRateConfig::default from the source. -/
def InterestRateConfig.default : InterestRateConfig :=
  { base_rate := 2000000
    kink_utilization := 80000000
    multiplier := 10000000
    reserve_factor := 10000000
    rate_ceiling := 50000000
    rate_floor := 100000
    last_update := 0 }

/-- Current interest-rate state of the protocol. -/
structure InterestRateState where
  current_borrow_rate : Int
  current_supply_rate : Int
  utilization_rate : Int
  total_borrowed : Int
  total_supplied : Int
  last_accrual_time : Nat
deriving DecidableEq, Repr

/-- InterestRateState::initial from the source. -/
def InterestRateState.initial : InterestRateState :=
  { current_borrow_rate := 0
    current_supply_rate := 0
    utilization_rate := 0
    total_borrowed := 0
    total_supplied := 0
    last_accrual_time := 0 }

/-- Risk configuration: liquidation parameters and pause switches. -/
structure RiskConfig where
  close_factor : Int
  liquidation_incentive : Int
  pause_borrow : Bool
  pause_deposit : Bool
  pause_withdraw : Bool
  pause_liquidate : Bool
  last_update : Nat
deriving DecidableEq, Repr

/-- RiskConfig::default from the source. -/
def RiskConfig.default : RiskConfig :=
  { close_factor := 50000000
    liquidation_incentive := 10000000
    pause_borrow := false
    pause_deposit := false
    pause_withdraw := false
    pause_liquidate := false
    last_update := 0 }

/-- Reserve bookkeeping data. -/
structure ReserveData where
  total_fees_collected : Int
  total_fees_distributed : Int
  current_reserves : Int
  treasury_address : String
  last_distribution_time : Nat
  distribution_frequency : Nat
deriving DecidableEq, Repr

/-- ReserveData::default from the source. -/
def ReserveData.default : ReserveData :=
  { total_fees_collected := 0
    total_fees_distributed := 0
    current_reserves := 0
    treasury_address := "GCXOTMMXRS24MYZI5FJPUCOEOFNWSR4XX7UXIK3NDGGE6A5QMJ5FF2FS"
    last_distribution_time := 0
    distribution_frequency := 86400 }

/-- Revenue metrics for analytics. -/
structure RevenueMetrics where
  daily_fees : Int
  weekly_fees : Int
  monthly_fees : Int
  total_borrow_fees : Int
  total_supply_fees : Int
deriving DecidableEq, Repr

/-- RevenueMetrics::default from the source. -/
def RevenueMetrics.default : RevenueMetrics :=
  { daily_fees := 0
    weekly_fees := 0
    monthly_fees := 0
    total_borrow_fees := 0
    total_supply_fees := 0 }

namespace InterestRateManager

/-- InterestRateManager::calculate_utilization: total_borrowed * 1e8 /
total_supplied, and zero when nothing is supplied. -/
def calculate_utilization (total_borrowed total_supplied : Int) : Int :=
  if total_supplied = 0 then 0
  else idiv (total_borrowed * 100000000) total_supplied

/-- InterestRateManager::calculate_borrow_rate: base rate plus the excess
utilization above the kink times the multiplier, clamped to the configured
floor and ceiling. -/
def calculate_borrow_rate (utilization : Int) (config : InterestRateConfig) : Int :=
  let rate := config.base_rate
  let rate :=
    if utilization > config.kink_utilization then
      rate + idiv ((utilization - config.kink_utilization) * config.multiplier) 100000000
    else rate
  min (max rate config.rate_floor) config.rate_ceiling

/-- InterestRateManager::calculate_supply_rate: borrow rate times
utilization, minus the protocol share given by the reserve factor. -/
def calculate_supply_rate (borrow_rate utilization reserve_factor : Int) : Int :=
  let effective_rate := idiv (borrow_rate * utilization) 100000000
  let protocol_fee := idiv (effective_rate * reserve_factor) 100000000
  effective_rate - protocol_fee

/-- InterestRateManager::calculate_interest: simple interest over the
elapsed seconds, zero when the principal, rate or elapsed time is zero. -/
def calculate_interest (principal rate : Int) (time_delta : Nat) : Int :=
  if principal = 0 ∨ rate = 0 ∨ time_delta = 0 then 0
  else idiv (principal * rate * (time_delta : Int)) (31536000 * 100000000)

/-- InterestRateManager::update_rates: recompute utilization and both rates
from the totals and stamp the accrual time. -/
def update_rates (state : InterestRateState) (config : InterestRateConfig)
    (now : Nat) : InterestRateState :=
  let utilization := calculate_utilization state.total_borrowed state.total_supplied
  let borrow_rate := calculate_borrow_rate utilization config
  let supply_rate := calculate_supply_rate borrow_rate utilization config.reserve_factor
  { state with
    utilization_rate := utilization
    current_borrow_rate := borrow_rate
    current_supply_rate := supply_rate
    last_accrual_time := now }

/-- InterestRateManager::accrue_interest_for_position: add simple interest
on debt and collateral to the separate accumulators.  The elapsed time is
taken as zero when last_accrual_time is zero, and nothing at all happens
(including the timestamp update) when the elapsed time is zero. -/
def accrue_interest_for_position (now : Nat) (position : Position)
    (borrow_rate supply_rate : Int) : Position :=
  let time_delta := if position.last_accrual_time = 0 then 0 else now - position.last_accrual_time
  if time_delta > 0 then
    let p1 :=
      if position.debt > 0 then
        { position with
          borrow_interest := position.borrow_interest +
            calculate_interest position.debt borrow_rate time_delta }
      else position
    let p2 :=
      if p1.collateral > 0 then
        { p1 with
          supply_interest := p1.supply_interest +
            calculate_interest p1.collateral supply_rate time_delta }
      else p1
    { p2 with last_accrual_time := now }
  else position

/-- InterestRateManager::collect_fees_from_interest: protocol fee taken
from borrow interest directly, and from supply interest by grossing it up
by one minus the reserve factor.  (In the source a reserve factor of 1e8
would make the gross-up divide by zero and abort; here division by zero
yields zero.) -/
def collect_fees_from_interest (borrow_interest supply_interest reserve_factor : Int) :
    Int × Int :=
  let borrow_fee := idiv (borrow_interest * reserve_factor) 100000000
  let total_supply_interest_without_fee :=
    idiv (supply_interest * 100000000) (100000000 - reserve_factor)
  let supply_fee := total_supply_interest_without_fee - supply_interest
  (borrow_fee, supply_fee)

end InterestRateManager

/-- StateHelper::dynamic_collateral_ratio from the source: the percent
collateral value over debt, computed as ((collateral * price * 100) / 1e8)
/ debt with truncated division, and the maximal i128 value when the debt is
zero.  The price argument stands for the value P::get_price returns. -/
def dynamic_collateral_ratio (price : Int) (position : Position) : Int :=
  if position.debt = 0 then i128MAX
  else idiv (idiv (position.collateral * price * 100) 100000000) position.debt

/-- Oracle-related storage: whether an oracle address is configured, the
last stored price and its timestamp (both zero before any store), and the
configured deviation bound and fallback price (which the source reads with
defaults 50 and 150000000). -/
structure OracleState where
  oracle_configured : Bool
  last_price : Int
  last_update : Nat
  max_price_deviation : Int
  fallback_price : Int
deriving DecidableEq, Repr

/-- The percentage deviation of a candidate price from the last stored
price, as computed inside RealPriceOracle::validate_price. -/
def price_deviation (last_price price : Int) : Int :=
  if last_price > price then idiv ((last_price - price) * 100) last_price
  else idiv ((price - last_price) * 100) last_price

/-- RealPriceOracle::validate_price: the first price (stored price still
zero) is always valid; afterwards a price is valid when its deviation from
the last stored price is at most max_price_deviation. -/
def validate_price (s : OracleState) (price : Int) : Bool :=
  if s.last_price = 0 then true
  else price_deviation s.last_price price ≤ s.max_price_deviation

/-- The simulated raw price RealPriceOracle::get_price fetches: 2.0 plus a
small time-based variation, scaled by 1e8. -/
def simulated_price (now : Nat) : Int :=
  200000000 + ((now % 1000 : Nat) : Int) * 10000

/-- RealPriceOracle::get_price: fallback when no oracle is configured;
otherwise fetch the raw price, discard it (returning the fallback, storing
nothing) when validation fails, and store it with the current timestamp
when validation succeeds. -/
def get_price (s : OracleState) (now : Nat) : Int × OracleState :=
  if ¬ s.oracle_configured then (s.fallback_price, s)
  else
    let price := simulated_price now
    if ¬ validate_price s price then (s.fallback_price, s)
    else (price, { s with last_price := price, last_update := now })

/-- The contract storage visible to the embedded position-ledger, reserve
and oracle operations.  Reads of absent keys in the source return defaults;
here every field holds the current logical value, with the defaults as the
initial values.  The suspicious-activity counter is a single global counter
because SecurityMonitor uses one fixed storage key for every user. -/
structure ProtocolState where
  positions : String → Option Position
  ir_config : InterestRateConfig
  ir_state : InterestRateState
  risk_config : RiskConfig
  reserve_data : ReserveData
  revenue_metrics : RevenueMetrics
  oracle : OracleState
  min_collateral_ratio : Int
  frozen : String → Bool
  blacklisted : String → Bool
  suspicious_count : Nat
  reentrancy : Bool

/-- StateHelper::dynamic_collateral_ratio specialised to RealPriceOracle
inside a contract call: when the position has debt the oracle is consulted,
which may store a freshly validated price; with no debt the oracle is not
touched. -/
def dynamic_ratio_oracle (s : ProtocolState) (position : Position) (now : Nat) :
    Int × OracleState :=
  if position.debt = 0 then (i128MAX, s.oracle)
  else
    let pr := get_price s.oracle now
    (idiv (idiv (position.collateral * pr.1 * 100) 100000000) position.debt, pr.2)

/-- InterestRateStorage::update_state: recompute and persist the rate
state. -/
def update_state (s : ProtocolState) (now : Nat) : InterestRateState :=
  InterestRateManager.update_rates s.ir_state s.ir_config now

/-- StateHelper::save_position as a storage update. -/
def save_position (s : ProtocolState) (p : Position) : ProtocolState :=
  { s with positions := fun u => if u = p.user then some p else s.positions u }

/-- The prologue every position-ledger call performs after its validation
checks: recompute and persist the rate state
(InterestRateStorage::update_state) and accrue interest for the given
position at the new rates.  Returns the state carrying the new rate state
together with the accrued position. -/
def accrue_position_state (s : ProtocolState) (position : Position) (now : Nat) :
    ProtocolState × Position :=
  let st := update_state s now
  ({ s with ir_state := st },
   InterestRateManager.accrue_interest_for_position now position
     st.current_borrow_rate st.current_supply_rate)

/-- The commit phase of Contract::borrow: persist the position with its new
debt, raise total_borrowed, and collect the protocol share of any accrued
borrow interest into the reserves. -/
def borrow_settle (s2 : ProtocolState) (position : Position) (amount : Int) :
    Except ProtocolError Unit × ProtocolState :=
  let s3 := save_position s2 position
  let s4 := { s3 with ir_state :=
    { s3.ir_state with total_borrowed := s3.ir_state.total_borrowed + amount } }
  let s5 :=
    if position.borrow_interest > 0 then
      let borrow_fee := (InterestRateManager.collect_fees_from_interest
        position.borrow_interest 0 s4.ir_config.reserve_factor).1
      if borrow_fee > 0 then
        { s4 with
          reserve_data := { s4.reserve_data with
            total_fees_collected := s4.reserve_data.total_fees_collected + borrow_fee
            current_reserves := s4.reserve_data.current_reserves + borrow_fee }
          revenue_metrics := { s4.revenue_metrics with
            total_borrow_fees := s4.revenue_metrics.total_borrow_fees + borrow_fee } }
      else s4
    else s4
  (.ok (), s5)

/-- The body of Contract::borrow after its validation checks: accrue, form
the position with the increased debt, consult the oracle for the dynamic
ratio of that position, reject (recording suspicious activity) when the
ratio is below the minimum, and otherwise commit. -/
def borrow_exec (s : ProtocolState) (borrower : String) (amount : Int) (now : Nat) :
    Except ProtocolError Unit × ProtocolState :=
  let ap := accrue_position_state s
    ((s.positions borrower).getD (Position.new borrower 0 0)) now
  let s1 := ap.1
  let new_position := { ap.2 with debt := ap.2.debt + amount }
  let ro := dynamic_ratio_oracle s1 new_position now
  let s2 := { s1 with oracle := ro.2 }
  if ro.1 < s2.min_collateral_ratio then
    (.error .InsufficientCollateralRatio,
      { s2 with suspicious_count := s2.suspicious_count + 1 })
  else borrow_settle s2 new_position amount

/-- The body of Contract::borrow (the closure inside the reentrancy
guard): the validation checks in source order, then borrow_exec. -/
def borrow_inner (s : ProtocolState) (borrower : String) (amount : Int) (now : Nat) :
    Except ProtocolError Unit × ProtocolState :=
  if borrower = "" then (.error .InvalidAddress, s)
  else if amount ≤ 0 then (.error .InvalidAmount, s)
  else if s.risk_config.pause_borrow then (.error .ProtocolPaused, s)
  else if s.frozen borrower then
    (.error .Unauthorized, { s with suspicious_count := s.suspicious_count + 1 })
  else if s.blacklisted borrower then (.error .Unauthorized, s)
  else borrow_exec s borrower amount now

/-- Contract::borrow: the reentrancy guard around borrow_inner.  A failed
guard entry returns before the guard exit runs; otherwise the lock is
cleared on every exit path. -/
def borrow (s : ProtocolState) (borrower : String) (amount : Int) (now : Nat) :
    Except ProtocolError Unit × ProtocolState :=
  if s.reentrancy then (.error .Unknown, s)
  else
    let r := borrow_inner { s with reentrancy := true } borrower amount now
    (r.1, { r.2 with reentrancy := false })

/-- The commit phase of Contract::deposit_collateral: persist the position
with its new collateral, raise total_supplied, and collect the protocol
share of any accrued supply interest into the reserves. -/
def deposit_settle (s1 : ProtocolState) (position : Position) (amount : Int) :
    Except ProtocolError Unit × ProtocolState :=
  let s2 := save_position s1 position
  let s3 := { s2 with ir_state :=
    { s2.ir_state with total_supplied := s2.ir_state.total_supplied + amount } }
  let s4 :=
    if position.supply_interest > 0 then
      let supply_fee := (InterestRateManager.collect_fees_from_interest 0
        position.supply_interest s3.ir_config.reserve_factor).2
      if supply_fee > 0 then
        { s3 with
          reserve_data := { s3.reserve_data with
            total_fees_collected := s3.reserve_data.total_fees_collected + supply_fee
            current_reserves := s3.reserve_data.current_reserves + supply_fee }
          revenue_metrics := { s3.revenue_metrics with
            total_supply_fees := s3.revenue_metrics.total_supply_fees + supply_fee } }
      else s3
    else s3
  (.ok (), s4)

/-- The body of Contract::deposit_collateral after its validation checks. -/
def deposit_exec (s : ProtocolState) (depositor : String) (amount : Int) (now : Nat) :
    Except ProtocolError Unit × ProtocolState :=
  let ap := accrue_position_state s
    ((s.positions depositor).getD (Position.new depositor 0 0)) now
  deposit_settle ap.1 { ap.2 with collateral := ap.2.collateral + amount } amount

/-- The body of Contract::deposit_collateral (the closure inside the
reentrancy guard): the validation checks in source order, then
deposit_exec. -/
def deposit_inner (s : ProtocolState) (depositor : String) (amount : Int) (now : Nat) :
    Except ProtocolError Unit × ProtocolState :=
  if depositor = "" then (.error .InvalidAddress, s)
  else if amount ≤ 0 then (.error .InvalidAmount, s)
  else if s.risk_config.pause_deposit then (.error .ProtocolPaused, s)
  else if s.frozen depositor then
    (.error .Unauthorized, { s with suspicious_count := s.suspicious_count + 1 })
  else if s.blacklisted depositor then (.error .Unauthorized, s)
  else deposit_exec s depositor amount now

/-- Contract::deposit_collateral with its reentrancy guard. -/
def deposit_collateral (s : ProtocolState) (depositor : String) (amount : Int) (now : Nat) :
    Except ProtocolError Unit × ProtocolState :=
  if s.reentrancy then (.error .Unknown, s)
  else
    let r := deposit_inner { s with reentrancy := true } depositor amount now
    (r.1, { r.2 with reentrancy := false })

/-- The body of Contract::repay after its validation checks: debt is
reduced by the requested amount but floored at zero, and the global
total_borrowed falls by the actual debt reduction. -/
def repay_exec (s : ProtocolState) (repayer : String) (amount : Int) (now : Nat) :
    Except ProtocolError Unit × ProtocolState :=
  let ap := accrue_position_state s
    ((s.positions repayer).getD (Position.new repayer 0 0)) now
  let s1 := ap.1
  let old_debt := ap.2.debt
  let position := { ap.2 with debt := max (ap.2.debt - amount) 0 }
  let s2 := save_position s1 position
  let s3 := { s2 with ir_state :=
    { s2.ir_state with
      total_borrowed := s2.ir_state.total_borrowed - (old_debt - position.debt) } }
  (.ok (), s3)

/-- The body of Contract::repay (the closure inside the reentrancy guard):
the validation checks in source order (repay has no pause switch), then
repay_exec. -/
def repay_inner (s : ProtocolState) (repayer : String) (amount : Int) (now : Nat) :
    Except ProtocolError Unit × ProtocolState :=
  if repayer = "" then (.error .InvalidAddress, s)
  else if amount ≤ 0 then (.error .InvalidAmount, s)
  else if s.frozen repayer then
    (.error .Unauthorized, { s with suspicious_count := s.suspicious_count + 1 })
  else if s.blacklisted repayer then (.error .Unauthorized, s)
  else repay_exec s repayer amount now

/-- Contract::repay with its reentrancy guard. -/
def repay (s : ProtocolState) (repayer : String) (amount : Int) (now : Nat) :
    Except ProtocolError Unit × ProtocolState :=
  if s.reentrancy then (.error .Unknown, s)
  else
    let r := repay_inner { s with reentrancy := true } repayer amount now
    (r.1, { r.2 with reentrancy := false })

/-- The commit phase of Contract::withdraw: persist the position with its
reduced collateral and lower total_supplied. -/
def withdraw_settle (s2 : ProtocolState) (position : Position) (amount : Int) :
    Except ProtocolError Unit × ProtocolState :=
  let s3 := save_position s2 position
  let s4 := { s3 with ir_state :=
    { s3.ir_state with total_supplied := s3.ir_state.total_supplied - amount } }
  (.ok (), s4)

/-- The body of Contract::withdraw after its validation checks: accrue,
require enough collateral, simulate the post-withdrawal ratio on a copy of
the position, and reject - after the rate state was already recomputed and
saved - when debt is outstanding and the simulated ratio is below the
minimum. -/
def withdraw_exec (s : ProtocolState) (withdrawer : String) (amount : Int) (now : Nat) :
    Except ProtocolError Unit × ProtocolState :=
  let ap := accrue_position_state s
    ((s.positions withdrawer).getD (Position.new withdrawer 0 0)) now
  let s1 := ap.1
  let position := ap.2
  if position.collateral < amount then (.error .InsufficientCollateral, s1)
  else
    let new_position := { position with collateral := position.collateral - amount }
    let ro := dynamic_ratio_oracle s1 new_position now
    let s2 := { s1 with oracle := ro.2 }
    if position.debt > 0 ∧ ro.1 < s2.min_collateral_ratio then
      (.error .InsufficientCollateralRatio, s2)
    else withdraw_settle s2 new_position amount

/-- Contract::withdraw (no reentrancy guard in the source): the validation
checks in source order, then withdraw_exec. -/
def withdraw (s : ProtocolState) (withdrawer : String) (amount : Int) (now : Nat) :
    Except ProtocolError Unit × ProtocolState :=
  if withdrawer = "" then (.error .InvalidAddress, s)
  else if amount ≤ 0 then (.error .InvalidAmount, s)
  else if s.risk_config.pause_withdraw then (.error .ProtocolPaused, s)
  else if s.frozen withdrawer then (.error .Unauthorized, s)
  else if s.blacklisted withdrawer then (.error .Unauthorized, s)
  else withdraw_exec s withdrawer amount now

/-- The liquidation arithmetic and commit phase of Contract::liquidate:
repayment capped by the requested amount, the debt and the close factor
(zero cap is InvalidAmount), seizure of repayment plus incentive capped by
the available collateral, and the global borrow total lowered by the
repayment. -/
def liquidate_settle (s2 : ProtocolState) (position : Position) (amount : Int) :
    Except ProtocolError Unit × ProtocolState :=
  let max_repay_amount := idiv (position.debt * s2.risk_config.close_factor) 100000000
  let repay_amount := min (min amount position.debt) max_repay_amount
  if repay_amount = 0 then (.error .InvalidAmount, s2)
  else
    let incentive_amount :=
      idiv (repay_amount * s2.risk_config.liquidation_incentive) 100000000
    let total_collateral_seized := repay_amount + incentive_amount
    let actual_collateral_seized := min total_collateral_seized position.collateral
    let position2 := { position with
      debt := position.debt - repay_amount
      collateral := position.collateral - actual_collateral_seized }
    let s3 := save_position s2 position2
    let s4 := { s3 with ir_state :=
      { s3.ir_state with
        total_borrowed := s3.ir_state.total_borrowed - repay_amount } }
    (.ok (), s4)

/-- The body of Contract::liquidate once the target position was found:
accrue, check eligibility against the dynamic ratio, then settle. -/
def liquidate_exec (s : ProtocolState) (target_pos : Position) (amount : Int) (now : Nat) :
    Except ProtocolError Unit × ProtocolState :=
  let ap := accrue_position_state s target_pos now
  let s1 := ap.1
  let position := ap.2
  let ro := dynamic_ratio_oracle s1 position now
  let s2 := { s1 with oracle := ro.2 }
  if ro.1 ≥ s2.min_collateral_ratio then (.error .NotEligibleForLiquidation, s2)
  else liquidate_settle s2 position amount

/-- Contract::liquidate (no reentrancy guard in the source): the validation
checks in source order, the position lookup, then liquidate_exec. -/
def liquidate (s : ProtocolState) (liquidator target : String) (amount : Int) (now : Nat) :
    Except ProtocolError Unit × ProtocolState :=
  if liquidator = "" ∨ target = "" then (.error .InvalidAddress, s)
  else if amount ≤ 0 then (.error .InvalidAmount, s)
  else if s.risk_config.pause_liquidate then (.error .ProtocolPaused, s)
  else if s.frozen target then (.error .Unauthorized, s)
  else
    match s.positions target with
    | none => (.error .PositionNotFound, s)
    | some position => liquidate_exec s position amount now

/-- Contract::collect_protocol_fees: admin-gated; adds the amount to both
total_fees_collected and current_reserves and buckets it by source. -/
def collect_protocol_fees (s : ProtocolState) (caller_is_admin : Bool) (amount : Int)
    (source : String) : Except ProtocolError Unit × ProtocolState :=
  if ¬ caller_is_admin then (.error .Unauthorized, s)
  else if amount ≤ 0 then (.error .InvalidAmount, s)
  else
    let s1 := { s with reserve_data := { s.reserve_data with
      total_fees_collected := s.reserve_data.total_fees_collected + amount
      current_reserves := s.reserve_data.current_reserves + amount } }
    let s2 :=
      if source = "borrow" then
        { s1 with revenue_metrics := { s1.revenue_metrics with
          total_borrow_fees := s1.revenue_metrics.total_borrow_fees + amount } }
      else if source = "supply" then
        { s1 with revenue_metrics := { s1.revenue_metrics with
          total_supply_fees := s1.revenue_metrics.total_supply_fees + amount } }
      else s1
    (.ok (), s2)

/-- Contract::distribute_fees_to_treasury: admin-gated; bounded by the
current reserves; moves the amount from reserves to distributed and stamps
the distribution time. -/
def distribute_fees_to_treasury (s : ProtocolState) (caller_is_admin : Bool) (amount : Int)
    (now : Nat) : Except ProtocolError Unit × ProtocolState :=
  if ¬ caller_is_admin then (.error .Unauthorized, s)
  else if amount ≤ 0 then (.error .InvalidAmount, s)
  else if amount > s.reserve_data.current_reserves then (.error .InsufficientCollateral, s)
  else
    (.ok (), { s with reserve_data := { s.reserve_data with
      total_fees_distributed := s.reserve_data.total_fees_distributed + amount
      current_reserves := s.reserve_data.current_reserves - amount
      last_distribution_time := now } })

/-- Contract::emergency_withdraw_fees: admin-gated; bounded by the current
reserves; reduces current_reserves without touching either
total_fees_collected or total_fees_distributed. -/
def emergency_withdraw_fees (s : ProtocolState) (caller_is_admin : Bool) (amount : Int) :
    Except ProtocolError Unit × ProtocolState :=
  if ¬ caller_is_admin then (.error .Unauthorized, s)
  else if amount ≤ 0 then (.error .InvalidAmount, s)
  else if amount > s.reserve_data.current_reserves then (.error .InsufficientCollateral, s)
  else
    (.ok (), { s with reserve_data := { s.reserve_data with
      current_reserves := s.reserve_data.current_reserves - amount } })

/-- add_admin from the source: caller must be an admin, the target must be
absent, and the target is appended to the set. -/
def add_admin (admins : List String) (admin new_admin : String) :
    Except ProtocolError (List String) :=
  if ¬ admins.contains admin then .error .Unauthorized
  else if admins.contains new_admin then .error .AlreadyExists
  else .ok (admins ++ [new_admin])

/-- remove_admin from the source: caller must be an admin; an absent target
is NotFound; removing from a one-element set is InvalidOperation; otherwise
the first occurrence of the target is removed. -/
def remove_admin (admins : List String) (admin target : String) :
    Except ProtocolError (List String) :=
  if ¬ admins.contains admin then .error .Unauthorized
  else if ¬ admins.contains target then .error .NotFound
  else if admins.length = 1 then .error .InvalidOperation
  else .ok (admins.erase target)

/-- transfer_admin from the source: caller must be an admin (the second
containment check in the source can never fail after the first); the first
occurrence of the caller is removed and the new admin appended. -/
def transfer_admin (admins : List String) (admin new_admin : String) :
    Except ProtocolError (List String) :=
  if ¬ admins.contains admin then .error .Unauthorized
  else if ¬ admins.contains admin then .error .NotFound
  else .ok (admins.erase admin ++ [new_admin])

/-- One call of the admin-set interface. -/
inductive AdminOp where
  | add (caller new_admin : String)
  | remove (caller target : String)
  | transfer (caller new_admin : String)
deriving DecidableEq, Repr

/-- Apply one admin-set call; a call that returns an error leaves the
stored set unchanged. -/
def apply_admin_op (admins : List String) : AdminOp → List String
  | .add c n =>
    match add_admin admins c n with
    | .ok s => s
    | .error _ => admins
  | .remove c t =>
    match remove_admin admins c t with
    | .ok s => s
    | .error _ => admins
  | .transfer c n =>
    match transfer_admin admins c n with
    | .ok s => s
    | .error _ => admins

/-- Run a sequence of admin-set calls. -/
def run_admin_ops (admins : List String) (ops : List AdminOp) : List String :=
  ops.foldl apply_admin_op admins

/-- Status of a configuration proposal. -/
inductive ProposalStatus where
  | Pending
  | Approved
  | Rejected
  | Cancelled
deriving DecidableEq, Repr

/-- Oracle part of a versioned protocol configuration. -/
structure OracleConfiguration where
  max_deviation : Int
  heartbeat : Nat
  fallback_price : Int
deriving DecidableEq, Repr

/-- Protocol-level parameters of a versioned configuration. -/
structure ProtocolParameters where
  min_collateral_ratio : Int
  distribution_frequency : Nat
  max_assets : Nat
deriving DecidableEq, Repr

/-- Per-asset part of a versioned configuration. -/
structure AssetConfiguration where
  symbol : String
  decimals : Nat
  min_collateral_ratio : Int
deriving DecidableEq, Repr

/-- Version stamp of a configuration. -/
structure ConfigurationVersion where
  version : Nat
  created_at : Nat
  created_by : String
  description : String
  is_active : Bool
deriving DecidableEq, Repr

/-- A versioned bundle of protocol configuration. -/
structure ProtocolConfiguration where
  version : ConfigurationVersion
  interest_config : InterestRateConfig
  risk_config : RiskConfig
  oracle_config : OracleConfiguration
  protocol_params : ProtocolParameters
  asset_configs : List AssetConfiguration
deriving DecidableEq, Repr

/-- A configuration proposal. -/
structure ConfigurationProposal where
  proposal_id : Nat
  proposed_config : ProtocolConfiguration
  current_version : Nat
  created_at : Nat
  created_by : String
  status : ProposalStatus
  description : String
  expires_at : Nat
deriving DecidableEq, Repr

/-- ConfigurationValidator::validate_interest_config: true when the checks
that would push errors all pass (warnings never block). -/
def validate_interest_config (c : InterestRateConfig) : Bool :=
  ¬ (c.base_rate < 0) ∧ ¬ (c.base_rate > 100000000) ∧
  ¬ (c.kink_utilization ≤ 0 ∨ c.kink_utilization > 100000000) ∧
  ¬ (c.multiplier < 0) ∧
  ¬ (c.reserve_factor < 0 ∨ c.reserve_factor > 100000000) ∧
  ¬ (c.rate_floor > c.rate_ceiling) ∧ ¬ (c.rate_ceiling > 100000000)

/-- ConfigurationValidator::validate_risk_config. -/
def validate_risk_config (c : RiskConfig) : Bool :=
  ¬ (c.close_factor ≤ 0 ∨ c.close_factor > 100000000) ∧
  ¬ (c.liquidation_incentive < 0 ∨ c.liquidation_incentive > 50000000)

/-- ConfigurationValidator::validate_oracle_config. -/
def validate_oracle_config (c : OracleConfiguration) : Bool :=
  ¬ (c.max_deviation ≤ 0 ∨ c.max_deviation > 100000000) ∧
  ¬ (c.heartbeat = 0) ∧ ¬ (c.fallback_price ≤ 0)

/-- ConfigurationValidator::validate_protocol_params (error checks only;
the two pushes above 1000 and above 100 are warnings). -/
def validate_protocol_params (p : ProtocolParameters) : Bool :=
  ¬ (p.min_collateral_ratio < 100) ∧ ¬ (p.distribution_frequency = 0) ∧
  ¬ (p.max_assets = 0)

/-- ConfigurationValidator::validate_asset_config. -/
def validate_asset_config (c : AssetConfiguration) : Bool :=
  ¬ (c.symbol = "") ∧ ¬ (c.decimals > 18) ∧ ¬ (c.min_collateral_ratio < 100)

/-- ConfigurationValidator::validate_configuration: is_valid means that no
component check pushed an error. -/
def validate_configuration (c : ProtocolConfiguration) : Bool :=
  validate_interest_config c.interest_config ∧
  validate_risk_config c.risk_config ∧
  validate_oracle_config c.oracle_config ∧
  validate_protocol_params c.protocol_params ∧
  c.asset_configs.all validate_asset_config

/-- Governance storage: the proposal store, the current active
configuration and the version counter. -/
structure GovState where
  proposals : Nat → Option ConfigurationProposal
  current_config : Option ProtocolConfiguration
  version_counter : Nat

/-- Store a proposal under its id. -/
def save_proposal (s : GovState) (p : ConfigurationProposal) : GovState :=
  { s with proposals := fun i => if i = p.proposal_id then some p else s.proposals i }

/-- ConfigurationManager::update_configuration: admin-gated; requires a
current configuration; draws the next version number (a read-modify-write
that persists even when the subsequent validation fails, as in the source);
validates the updated configuration and activates it. -/
def update_configuration (s : GovState) (caller_is_admin : Bool) (admin description : String)
    (updates : ProtocolConfiguration) (now : Nat) :
    Except ProtocolError ProtocolConfiguration × GovState :=
  if ¬ caller_is_admin then (.error .Unauthorized, s)
  else
    match s.current_config with
    | none => (.error .NotFound, s)
    | some _current =>
      let next := s.version_counter + 1
      let s1 := { s with version_counter := next }
      let version : ConfigurationVersion :=
        { version := next, created_at := now, created_by := admin
          description := description, is_active := true }
      let updated : ProtocolConfiguration := { updates with version := version }
      if ¬ validate_configuration updated then (.error .InvalidInput, s1)
      else (.ok updated, { s1 with current_config := some updated })

/-- ConfigurationManager::approve_proposal: admin-gated; only a Pending
proposal can move; an approval attempted strictly after expires_at marks
the proposal Cancelled and fails with InvalidOperation without touching the
active configuration; otherwise the proposal is marked Approved and the
proposed configuration applied through update_configuration. -/
def approve_proposal (s : GovState) (caller_is_admin : Bool) (admin : String)
    (proposal_id : Nat) (now : Nat) :
    Except ProtocolError ProtocolConfiguration × GovState :=
  if ¬ caller_is_admin then (.error .Unauthorized, s)
  else
    match s.proposals proposal_id with
    | none => (.error .NotFound, s)
    | some proposal =>
      if proposal.status ≠ ProposalStatus.Pending then (.error .InvalidOperation, s)
      else if now > proposal.expires_at then
        (.error .InvalidOperation,
          save_proposal s { proposal with status := ProposalStatus.Cancelled })
      else
        let s1 := save_proposal s { proposal with status := ProposalStatus.Approved }
        update_configuration s1 caller_is_admin admin "Applied proposal"
          proposal.proposed_config now

/-- ConfigurationManager::reject_proposal: admin-gated; only a Pending
proposal can be rejected (with no expiry check at all); it is marked
Rejected. -/
def reject_proposal (s : GovState) (caller_is_admin : Bool) (proposal_id : Nat) :
    Except ProtocolError Unit × GovState :=
  if ¬ caller_is_admin then (.error .Unauthorized, s)
  else
    match s.proposals proposal_id with
    | none => (.error .NotFound, s)
    | some proposal =>
      if proposal.status ≠ ProposalStatus.Pending then (.error .InvalidOperation, s)
      else (.ok (), save_proposal s { proposal with status := ProposalStatus.Rejected })

theorem idiv_nonneg {a b : Int} (ha : 0 ≤ a) (hb : 0 ≤ b) : 0 ≤ idiv a b :=
  Int.tdiv_nonneg ha hb

theorem idiv_eq_ediv {a b : Int} (ha : 0 ≤ a) (hb : 0 ≤ b) : idiv a b = a / b :=
  Int.tdiv_eq_ediv ha hb

theorem ediv_antitone_right {a b c : Int} (ha : 0 ≤ a) (hb : 0 < b) (hbc : b ≤ c) :
    a / c ≤ a / b := by
  have hc : 0 < c := lt_of_lt_of_le hb hbc
  rw [Int.le_ediv_iff_mul_le hb]
  calc a / c * b ≤ a / c * c := by
        exact mul_le_mul_of_nonneg_left hbc (Int.ediv_nonneg ha (le_of_lt hc))
    _ ≤ a := Int.ediv_mul_le a (by omega)

/-- Addition of a protocol fee to both the collected total and the current
reserves, the reserve effect shared by the fee-collection blocks of deposit
and borrow and by collect_protocol_fees. -/
def fee_added (rd : ReserveData) (fee : Int) : ReserveData :=
  { rd with
    total_fees_collected := rd.total_fees_collected + fee
    current_reserves := rd.current_reserves + fee }

/-- The reserve-data invariant asserted by the specification: the current
reserves are exactly the collected fees minus the distributed fees, and
nonnegative. -/
def reserve_invariant (rd : ReserveData) : Prop :=
  rd.current_reserves = rd.total_fees_collected - rd.total_fees_distributed ∧
  0 ≤ rd.current_reserves

theorem borrow_settle_reserve (s2 : ProtocolState) (p : Position) (amount : Int) :
    (borrow_settle s2 p amount).2.reserve_data = s2.reserve_data ∨
    ∃ fee : Int, 0 < fee ∧
      (borrow_settle s2 p amount).2.reserve_data = fee_added s2.reserve_data fee := by
  unfold borrow_settle save_position fee_added
  dsimp only []
  split
  · split
    · right; exact ⟨_, by assumption, rfl⟩
    · left; rfl
  · left; rfl

theorem borrow_exec_reserve (s : ProtocolState) (b : String) (amount : Int) (now : Nat) :
    (borrow_exec s b amount now).2.reserve_data = s.reserve_data ∨
    ∃ fee : Int, 0 < fee ∧
      (borrow_exec s b amount now).2.reserve_data = fee_added s.reserve_data fee := by
  unfold borrow_exec accrue_position_state
  dsimp only []
  split
  · left; rfl
  · exact borrow_settle_reserve _ _ _

theorem borrow_reserve (s : ProtocolState) (b : String) (amount : Int) (now : Nat) :
    (borrow s b amount now).2.reserve_data = s.reserve_data ∨
    ∃ fee : Int, 0 < fee ∧
      (borrow s b amount now).2.reserve_data = fee_added s.reserve_data fee := by
  unfold borrow borrow_inner
  dsimp only []
  split
  · left; rfl
  · split
    · left; rfl
    · split
      · left; rfl
      · split
        · left; rfl
        · split
          · left; rfl
          · split
            · left; rfl
            · exact borrow_exec_reserve _ _ _ _

theorem deposit_settle_reserve (s1 : ProtocolState) (p : Position) (amount : Int) :
    (deposit_settle s1 p amount).2.reserve_data = s1.reserve_data ∨
    ∃ fee : Int, 0 < fee ∧
      (deposit_settle s1 p amount).2.reserve_data = fee_added s1.reserve_data fee := by
  unfold deposit_settle save_position fee_added
  dsimp only []
  split
  · split
    · right; exact ⟨_, by assumption, rfl⟩
    · left; rfl
  · left; rfl

theorem deposit_collateral_reserve (s : ProtocolState) (d : String) (amount : Int) (now : Nat) :
    (deposit_collateral s d amount now).2.reserve_data = s.reserve_data ∨
    ∃ fee : Int, 0 < fee ∧
      (deposit_collateral s d amount now).2.reserve_data = fee_added s.reserve_data fee := by
  unfold deposit_collateral deposit_inner deposit_exec accrue_position_state
  dsimp only []
  split
  · left; rfl
  · split
    · left; rfl
    · split
      · left; rfl
      · split
        · left; rfl
        · split
          · left; rfl
          · split
            · left; rfl
            · exact deposit_settle_reserve _ _ _

theorem fee_added_invariant {rd : ReserveData} {fee : Int}
    (hinv : reserve_invariant rd) (hfee : 0 < fee) :
    reserve_invariant (fee_added rd fee) := by
  obtain ⟨h1, h2⟩ := hinv
  constructor
  · simp only [fee_added]; omega
  · simp only [fee_added]; omega

/-- C2 (amended).  The reserve invariant current_reserves =
total_fees_collected - total_fees_distributed (and nonnegative) is
preserved by collect_protocol_fees, by distribute_fees_to_treasury and by
the fee collection inside deposit and borrow - whether they succeed or
fail - but emergency_withdraw_fees breaks it: a successful emergency
withdrawal lowers current_reserves by the amount while leaving both
total_fees_collected and total_fees_distributed unchanged, so the equality
necessarily fails afterwards (nonnegativity of the reserves is still
preserved). -/
theorem c2_reserve_invariant_ops (s : ProtocolState) (adm : Bool) (amount : Int)
    (source dep bor : String) (now : Nat)
    (hinv : reserve_invariant s.reserve_data) :
    reserve_invariant (collect_protocol_fees s adm amount source).2.reserve_data ∧
    reserve_invariant (distribute_fees_to_treasury s adm amount now).2.reserve_data ∧
    reserve_invariant (deposit_collateral s dep amount now).2.reserve_data ∧
    reserve_invariant (borrow s bor amount now).2.reserve_data ∧
    0 ≤ (emergency_withdraw_fees s adm amount).2.reserve_data.current_reserves ∧
    ((emergency_withdraw_fees s adm amount).1 = .ok () →
      (emergency_withdraw_fees s adm amount).2.reserve_data.total_fees_collected
          = s.reserve_data.total_fees_collected ∧
      (emergency_withdraw_fees s adm amount).2.reserve_data.total_fees_distributed
          = s.reserve_data.total_fees_distributed ∧
      (emergency_withdraw_fees s adm amount).2.reserve_data.current_reserves
          = s.reserve_data.current_reserves - amount ∧
      ¬ reserve_invariant (emergency_withdraw_fees s adm amount).2.reserve_data) := by
  obtain ⟨heq, hge⟩ := hinv
  refine ⟨?_, ?_, ?_, ?_, ?_, ?_⟩
  · unfold collect_protocol_fees
    dsimp only []
    split
    · exact ⟨heq, hge⟩
    · split
      · exact ⟨heq, hge⟩
      · next h2 =>
        split
        · exact ⟨by dsimp only []; omega, by dsimp only []; omega⟩
        · split
          · exact ⟨by dsimp only []; omega, by dsimp only []; omega⟩
          · exact ⟨by dsimp only []; omega, by dsimp only []; omega⟩
  · unfold distribute_fees_to_treasury
    dsimp only []
    split
    · exact ⟨heq, hge⟩
    · split
      · exact ⟨heq, hge⟩
      · split
        · exact ⟨heq, hge⟩
        · next h2 h3 =>
          exact ⟨by dsimp only []; omega, by dsimp only []; omega⟩
  · rcases deposit_collateral_reserve s dep amount now with h | ⟨fee, hfee, h⟩
    · rw [h]; exact ⟨heq, hge⟩
    · rw [h]; exact fee_added_invariant ⟨heq, hge⟩ hfee
  · rcases borrow_reserve s bor amount now with h | ⟨fee, hfee, h⟩
    · rw [h]; exact ⟨heq, hge⟩
    · rw [h]; exact fee_added_invariant ⟨heq, hge⟩ hfee
  · unfold emergency_withdraw_fees
    dsimp only []
    split
    · exact hge
    · split
      · exact hge
      · split
        · exact hge
        · dsimp only []; omega
  · intro hok
    unfold emergency_withdraw_fees at hok ⊢
    dsimp only [] at hok ⊢
    split at hok
    · exact absurd hok (by simp)
    · split at hok
      · exact absurd hok (by simp)
      · split at hok
        · exact absurd hok (by simp)
        · next h1 h2 h3 =>
          rw [if_neg h1, if_neg h2, if_neg h3]
          refine ⟨rfl, rfl, rfl, ?_⟩
          intro hbad
          obtain ⟨hbeq, _⟩ := hbad
          dsimp only [] at hbeq
          omega

/-- Base protocol state used by concrete witnesses: every stored value at
its source default, no oracle configured, nothing frozen or blacklisted. -/
def baseState : ProtocolState :=
  { positions := fun _ => none
    ir_config := InterestRateConfig.default
    ir_state := InterestRateState.initial
    risk_config := RiskConfig.default
    reserve_data := ReserveData.default
    revenue_metrics := RevenueMetrics.default
    oracle :=
      { oracle_configured := false
        last_price := 0
        last_update := 0
        max_price_deviation := 50
        fallback_price := 150000000 }
    min_collateral_ratio := 150
    frozen := fun _ => false
    blacklisted := fun _ => false
    suspicious_count := 0
    reentrancy := false }

/-- State with 100 units of collected, undistributed reserves. -/
def reservesState : ProtocolState :=
  { baseState with reserve_data :=
    { ReserveData.default with
      total_fees_collected := 100
      total_fees_distributed := 0
      current_reserves := 100 } }

/-- C2 witness: the amended statement instantiated at the concrete reserve
state with collected 100, distributed 0, reserves 100 and amount 40. -/
theorem c2_reserve_invariant_ops_witness :
    reserve_invariant (collect_protocol_fees reservesState true 40 "borrow").2.reserve_data ∧
    reserve_invariant (distribute_fees_to_treasury reservesState true 40 7).2.reserve_data ∧
    reserve_invariant (deposit_collateral reservesState "d" 40 7).2.reserve_data ∧
    reserve_invariant (borrow reservesState "b" 40 7).2.reserve_data ∧
    ¬ reserve_invariant (emergency_withdraw_fees reservesState true 40).2.reserve_data := by
  have h := c2_reserve_invariant_ops reservesState true 40 "borrow" "d" "b" 7
    (by constructor <;> decide)
  exact ⟨h.1, h.2.1, h.2.2.1, h.2.2.2.1, (h.2.2.2.2.2 rfl).2.2.2⟩

/-- C2 counterexample: from a state satisfying the invariant (collected
100, distributed 0, reserves 100) a successful emergency_withdraw_fees of
25 leaves collected 100, distributed 0 and reserves 75, violating
current_reserves = collected - distributed. -/
theorem c2_emergency_withdraw_counterexample :
    reserve_invariant reservesState.reserve_data ∧
    (emergency_withdraw_fees reservesState true 25).1 = .ok () ∧
    (emergency_withdraw_fees reservesState true 25).2.reserve_data.current_reserves = 75 ∧
    (emergency_withdraw_fees reservesState true 25).2.reserve_data.total_fees_collected = 100 ∧
    (emergency_withdraw_fees reservesState true 25).2.reserve_data.total_fees_distributed = 0 ∧
    ¬ reserve_invariant (emergency_withdraw_fees reservesState true 25).2.reserve_data := by
  refine ⟨⟨by decide, by decide⟩, rfl, rfl, rfl, rfl, ?_⟩
  intro hbad
  obtain ⟨hbeq, _⟩ := hbad
  revert hbeq
  decide

/-- C4 (amended).  With a nonnegative collateral and price, the dynamic
collateral ratio of a position with zero debt is the i128 maximum, and for
fixed collateral and price the ratio is non-increasing (weakly decreasing)
in the debt; whenever the source could compute the product collateral *
price * 100 without overflowing i128, the ratio of an indebted position
never exceeds that maximum.  (The strict decrease asserted by the claim
fails under the truncated integer division the source uses; see the
counterexample.) -/
theorem c4_zero_debt_max_ratio_antitone (u : String) (price collateral d d2 : Int)
    (hc : 0 ≤ collateral) (hp : 0 ≤ price) (hd : 0 < d) (hdd : d ≤ d2) :
    dynamic_collateral_ratio price (Position.new u collateral 0) = i128MAX ∧
    dynamic_collateral_ratio price { Position.new u collateral 0 with debt := d2 } ≤
      dynamic_collateral_ratio price { Position.new u collateral 0 with debt := d } ∧
    (collateral * price * 100 ≤ i128MAX →
      dynamic_collateral_ratio price { Position.new u collateral 0 with debt := d } ≤ i128MAX) := by
  have hd2 : 0 < d2 := lt_of_lt_of_le hd hdd
  have hN : 0 ≤ collateral * price * 100 := by positivity
  have hM : 0 ≤ idiv (collateral * price * 100) 100000000 :=
    idiv_nonneg hN (by norm_num)
  refine ⟨by simp [dynamic_collateral_ratio, Position.new], ?_, ?_⟩
  · simp only [dynamic_collateral_ratio, Position.new]
    rw [if_neg (by omega), if_neg (by omega)]
    rw [idiv_eq_ediv hM (le_of_lt hd2), idiv_eq_ediv hM (le_of_lt hd)]
    exact ediv_antitone_right hM hd hdd
  · intro hbound
    simp only [dynamic_collateral_ratio, Position.new]
    rw [if_neg (by omega)]
    have h1 : idiv (idiv (collateral * price * 100) 100000000) d ≤
        idiv (collateral * price * 100) 100000000 := by
      rw [idiv_eq_ediv hM (le_of_lt hd)]
      exact Int.ediv_le_self d hM
    have h2 : idiv (collateral * price * 100) 100000000 ≤ collateral * price * 100 := by
      rw [idiv_eq_ediv hN (by norm_num)]
      exact Int.ediv_le_self 100000000 hN
    omega

/-- C4 witness: concrete instance of the amended statement, at collateral
1, price 1e8, debts 200 and 300. -/
theorem c4_zero_debt_max_ratio_antitone_witness :
    dynamic_collateral_ratio 100000000 (Position.new "u" 1 0) = i128MAX ∧
    dynamic_collateral_ratio 100000000 { Position.new "u" 1 0 with debt := 300 } ≤
      dynamic_collateral_ratio 100000000 { Position.new "u" 1 0 with debt := 200 } ∧
    dynamic_collateral_ratio 100000000 { Position.new "u" 1 0 with debt := 200 } ≤ i128MAX := by
  have h := c4_zero_debt_max_ratio_antitone "u" 100000000 1 200 300
    (by norm_num) (by norm_num) (by norm_num) (by norm_num)
  exact ⟨h.1, h.2.1, h.2.2 (by norm_num [i128MAX])⟩

/-- C4 counterexample: with collateral 1 and price 1e8 the truncated ratio
is 0 at debt 200 and still 0 at debt 300, so the ratio does not strictly
decrease as the debt increases. -/
theorem c4_strict_decrease_counterexample :
    ¬ (dynamic_collateral_ratio 100000000
        { Position.new "u" 1 0 with debt := 300 } <
       dynamic_collateral_ratio 100000000
        { Position.new "u" 1 0 with debt := 200 }) := by
  decide

/-- C5 (amended).  When nothing is supplied the utilization is zero, and at
zero utilization (with a nonnegative kink, as every valid configuration
has) the computed borrow rate is the base rate clamped to the configured
floor and ceiling - so it equals the base rate exactly if and only if the
base rate already lies within those limits, as in the default
configuration - and the computed supply rate is zero exactly.  (The claim
that the borrow rate equals the base rate for every configuration fails
when the base rate lies outside the floor-ceiling band; see the
counterexample.) -/
theorem c5_zero_utilization_rates (config : InterestRateConfig) (tb br rf : Int)
    (hk : 0 ≤ config.kink_utilization) :
    InterestRateManager.calculate_utilization tb 0 = 0 ∧
    InterestRateManager.calculate_borrow_rate 0 config =
      min (max config.base_rate config.rate_floor) config.rate_ceiling ∧
    (config.rate_floor ≤ config.base_rate → config.base_rate ≤ config.rate_ceiling →
      InterestRateManager.calculate_borrow_rate 0 config = config.base_rate) ∧
    InterestRateManager.calculate_supply_rate br 0 rf = 0 := by
  have hb : InterestRateManager.calculate_borrow_rate 0 config =
      min (max config.base_rate config.rate_floor) config.rate_ceiling := by
    simp only [InterestRateManager.calculate_borrow_rate]
    rw [if_neg (by omega)]
  refine ⟨by simp [InterestRateManager.calculate_utilization], hb, ?_, ?_⟩
  · intro h1 h2
    rw [hb, max_eq_left h1, min_eq_left h2]
  · simp [InterestRateManager.calculate_supply_rate, idiv]

/-- C5 witness: the amended statement at the default configuration, whose
base rate lies inside the floor-ceiling band. -/
theorem c5_zero_utilization_rates_witness :
    InterestRateManager.calculate_utilization 5 0 = 0 ∧
    InterestRateManager.calculate_borrow_rate 0 InterestRateConfig.default = 2000000 ∧
    InterestRateManager.calculate_supply_rate 7 0 3 = 0 := by
  have h := c5_zero_utilization_rates InterestRateConfig.default 5 7 3 (by decide)
  exact ⟨h.1, h.2.2.1 (by decide) (by decide), h.2.2.2⟩

/-- C5 counterexample: a configuration with base rate 0 and the default
floor 100000 computes borrow rate 100000 at utilization 0, not the base
rate. -/
theorem c5_borrow_rate_not_base_counterexample :
    InterestRateManager.calculate_borrow_rate 0
        { InterestRateConfig.default with base_rate := 0 } ≠
      ({ InterestRateConfig.default with base_rate := 0 } : InterestRateConfig).base_rate := by
  decide

/-- C9.  Position::new sets last_accrual_time to 0, and for every position
whose last_accrual_time is 0, accrue_interest_for_position is the
identity at every timestamp and every rate - in particular any sequence of
accrual calls leaves such a position exactly unchanged, so it never begins
accruing interest. -/
theorem c9_zero_accrual_time_never_accrues (u : String) (c d : Int) (now : Nat)
    (pos : Position) (br sr : Int) (h : pos.last_accrual_time = 0) :
    (Position.new u c d).last_accrual_time = 0 ∧
    InterestRateManager.accrue_interest_for_position now pos br sr = pos ∧
    (∀ calls : List (Nat × Int × Int),
      calls.foldl
        (fun p call => InterestRateManager.accrue_interest_for_position call.1 p call.2.1 call.2.2)
        pos = pos) := by
  have hstep : ∀ (n : Nat) (b s2 : Int),
      InterestRateManager.accrue_interest_for_position n pos b s2 = pos := by
    intro n b s2
    simp [InterestRateManager.accrue_interest_for_position, h]
  refine ⟨rfl, hstep now br sr, ?_⟩
  intro calls
  induction calls with
  | nil => rfl
  | cons head tail ih => simpa [List.foldl, hstep] using ih

theorem accrue_position_state_fst (s : ProtocolState) (pos : Position) (now : Nat) :
    (accrue_position_state s pos now).1 = { s with ir_state := update_state s now } := rfl

theorem update_state_total_borrowed (s : ProtocolState) (now : Nat) :
    (update_state s now).total_borrowed = s.ir_state.total_borrowed := rfl

theorem accrue_preserves_debt (now : Nat) (pos : Position) (br sr : Int) :
    (InterestRateManager.accrue_interest_for_position now pos br sr).debt = pos.debt := by
  unfold InterestRateManager.accrue_interest_for_position
  dsimp only []
  repeat' split
  all_goals rfl

/-- C10.  A repay call whose positive amount exceeds the position's current
(post-accrual) debt succeeds, zeroes the debt - it never goes negative -
and lowers the global total_borrowed by the previous debt, not by the
requested amount; interest accrual never changes the debt itself, so the
previous debt is the debt stored before the call. -/
theorem c10_repay_overpay (s : ProtocolState) (r : String) (amount : Int) (now : Nat)
    (p : Position)
    (hre : s.reentrancy = false) (hr : r ≠ "") (hamt : 0 < amount)
    (hfroz : s.frozen r = false) (hbl : s.blacklisted r = false)
    (hp : p = (accrue_position_state { s with reentrancy := true }
      ((s.positions r).getD (Position.new r 0 0)) now).2)
    (huser : p.user = r)
    (hdebt : p.debt < amount) :
    (repay s r amount now).1 = .ok () ∧
    (repay s r amount now).2.positions r = some { p with debt := 0 } ∧
    (repay s r amount now).2.ir_state.total_borrowed
      = s.ir_state.total_borrowed - p.debt ∧
    p.debt = ((s.positions r).getD (Position.new r 0 0)).debt := by
  have hmax : max (p.debt - amount) 0 = 0 := max_eq_right (by omega)
  have hpd : p.debt = ((s.positions r).getD (Position.new r 0 0)).debt := by
    rw [hp]
    exact accrue_preserves_debt _ _ _ _
  unfold repay repay_inner repay_exec save_position
  dsimp only []
  rw [if_neg (by simp [hre]), if_neg (by simpa using hr), if_neg (by omega),
    if_neg (by simp [hfroz]), if_neg (by simp [hbl])]
  rw [← hp]
  refine ⟨rfl, ?_, ?_, hpd⟩
  · dsimp only []
    rw [if_pos huser.symm, hmax]
  · dsimp only [accrue_position_state_fst]
    rw [hmax]
    dsimp only [update_state_total_borrowed]
    omega

/-- State holding one position for user r with debt 5 and nothing else. -/
def overpayState : ProtocolState :=
  { baseState with
    positions := fun u => if u = "r" then some (Position.new "r" 0 5) else none
    ir_state := { InterestRateState.initial with total_borrowed := 5 } }

/-- C10 witness: repaying 10 against a debt of 5 succeeds, zeroes the debt
and lowers total_borrowed by 5, to 0. -/
theorem c10_repay_overpay_witness :
    (repay overpayState "r" 10 0).1 = .ok () ∧
    (repay overpayState "r" 10 0).2.positions "r" =
      some { Position.new "r" 0 5 with debt := 0 } ∧
    (repay overpayState "r" 10 0).2.ir_state.total_borrowed = 0 := by
  have h := c10_repay_overpay overpayState "r" 10 0 (Position.new "r" 0 5)
    rfl (by decide) (by decide) rfl rfl (by decide) rfl (by decide)
  refine ⟨h.1, h.2.1, ?_⟩
  rw [h.2.2.1]
  decide

/-- C1.  On an existing position that is eligible for liquidation (accrued
dynamic ratio below the minimum) while liquidation is not paused, the
repaid amount is min(requested, debt, debt*close_factor/1e8); when that
minimum is 0 the call fails with InvalidAmount and commits nothing beyond
the rate-state refresh and oracle touch; otherwise the seized collateral is
min(repay + repay*liquidation_incentive/1e8, collateral) and the post-state
has debt lowered by the repaid amount, collateral lowered by the seized
amount, and total_borrowed lowered by the repaid amount. -/
theorem c1_liquidate_math (s : ProtocolState) (liq target : String) (amount : Int)
    (now : Nat) (pos p : Position) (ro : Int × OracleState)
    (hliq : liq ≠ "") (htgt : target ≠ "") (hamt : 0 < amount)
    (hpause : s.risk_config.pause_liquidate = false)
    (hfroz : s.frozen target = false)
    (hpos : s.positions target = some pos)
    (hp : p = (accrue_position_state s pos now).2)
    (hro : ro = dynamic_ratio_oracle (accrue_position_state s pos now).1 p now)
    (helig : ro.1 < s.min_collateral_ratio)
    (huser : p.user = target) :
    (min (min amount p.debt) (idiv (p.debt * s.risk_config.close_factor) 100000000) = 0 →
      liquidate s liq target amount now =
        (.error .InvalidAmount,
          { (accrue_position_state s pos now).1 with oracle := ro.2 })) ∧
    (min (min amount p.debt) (idiv (p.debt * s.risk_config.close_factor) 100000000) ≠ 0 →
      (liquidate s liq target amount now).1 = .ok () ∧
      (liquidate s liq target amount now).2.positions target =
        some { p with
          debt := p.debt -
            min (min amount p.debt) (idiv (p.debt * s.risk_config.close_factor) 100000000)
          collateral := p.collateral -
            min (min (min amount p.debt)
                  (idiv (p.debt * s.risk_config.close_factor) 100000000) +
                idiv (min (min amount p.debt)
                    (idiv (p.debt * s.risk_config.close_factor) 100000000) *
                  s.risk_config.liquidation_incentive) 100000000)
              p.collateral } ∧
      (liquidate s liq target amount now).2.ir_state.total_borrowed =
        s.ir_state.total_borrowed -
          min (min amount p.debt) (idiv (p.debt * s.risk_config.close_factor) 100000000)) := by
  unfold liquidate liquidate_exec liquidate_settle save_position
  dsimp only []
  rw [if_neg (by simp [hliq, htgt]), if_neg (by omega), if_neg (by simp [hpause]),
    if_neg (by simp [hfroz]), hpos]
  dsimp only []
  rw [← hp, ← hro, accrue_position_state_fst]
  dsimp only []
  rw [if_neg (not_le.mpr helig)]
  constructor
  · intro h0
    rw [if_pos h0]
  · intro h0
    rw [if_neg h0]
    refine ⟨rfl, ?_, ?_⟩
    · dsimp only []
      rw [if_pos huser.symm]
    · dsimp only [update_state_total_borrowed]

/-- C3 (amended).  A borrow rejected with InsufficientCollateralRatio does
not leave all persisted state unchanged: the position store is untouched,
but the refreshed interest-rate state has already been saved, the oracle
price may have been stored, and the suspicious-activity counter is
incremented before returning; a withdraw rejected the same way likewise
persists the refreshed interest-rate state (though it records no suspicious
activity).  The post-state is characterised exactly. -/
theorem c3_failing_borrow_withdraw_state (s : ProtocolState) (u : String)
    (amount amount2 : Int) (now : Nat)
    (hre : s.reentrancy = false) (hu : u ≠ "")
    (hfroz : s.frozen u = false) (hbl : s.blacklisted u = false) :
    (0 < amount → s.risk_config.pause_borrow = false →
      ∀ p ro, p = (accrue_position_state { s with reentrancy := true }
          ((s.positions u).getD (Position.new u 0 0)) now).2 →
        ro = dynamic_ratio_oracle (accrue_position_state { s with reentrancy := true }
          ((s.positions u).getD (Position.new u 0 0)) now).1
          { p with debt := p.debt + amount } now →
        ro.1 < s.min_collateral_ratio →
        (borrow s u amount now).1 = .error .InsufficientCollateralRatio ∧
        (borrow s u amount now).2 =
          { s with
            ir_state := update_state s now
            oracle := ro.2
            suspicious_count := s.suspicious_count + 1 }) ∧
    (0 < amount2 → s.risk_config.pause_withdraw = false →
      ∀ p ro, p = (accrue_position_state s
          ((s.positions u).getD (Position.new u 0 0)) now).2 →
        ¬ p.collateral < amount2 →
        ro = dynamic_ratio_oracle (accrue_position_state s
          ((s.positions u).getD (Position.new u 0 0)) now).1
          { p with collateral := p.collateral - amount2 } now →
        0 < p.debt → ro.1 < s.min_collateral_ratio →
        (withdraw s u amount2 now).1 = .error .InsufficientCollateralRatio ∧
        (withdraw s u amount2 now).2 =
          { s with ir_state := update_state s now, oracle := ro.2 }) := by
  obtain ⟨posf, irc, irs, rc, rd, rm, oc, mcr, fz, bl, sc, re⟩ := s
  dsimp only [] at hre hfroz hbl ⊢
  subst hre
  constructor
  · intro hamt hpause p ro hp hro helig
    unfold borrow borrow_inner borrow_exec
    dsimp only []
    rw [if_neg (by simp), if_neg (by simpa using hu), if_neg (by omega),
      if_neg (by simpa using hpause), if_neg (by simp [hfroz]), if_neg (by simp [hbl])]
    rw [← hp, ← hro, accrue_position_state_fst]
    dsimp only []
    rw [if_pos helig]
    exact ⟨rfl, rfl⟩
  · intro hamt hpause p ro hp hcol hro hdebt helig
    unfold withdraw withdraw_exec
    dsimp only []
    rw [if_neg (by simpa using hu), if_neg (by omega), if_neg (by simpa using hpause),
      if_neg (by simp [hfroz]), if_neg (by simp [hbl])]
    rw [← hp, ← hro, accrue_position_state_fst]
    dsimp only []
    rw [if_neg hcol, if_pos ⟨hdebt, helig⟩]
    exact ⟨rfl, rfl⟩

/-- Position for the C3 witness: collateral 100, debt 50. -/
def c3Position : Position :=
  { user := "w"
    collateral := 100
    debt := 50
    borrow_interest := 0
    supply_interest := 0
    last_accrual_time := 0 }

/-- State holding c3Position, with 50 borrowed of 100 supplied. -/
def c3State : ProtocolState :=
  { baseState with
    positions := fun u => if u = "w" then some c3Position else none
    ir_state := { InterestRateState.initial with total_borrowed := 50, total_supplied := 100 } }

/-- C3 counterexample: a borrow from the default state fails with
InsufficientCollateralRatio yet the stored interest-rate state and the
suspicious-activity counter both differ from their values before the
call. -/
theorem c3_failing_borrow_mutates_counterexample :
    (borrow baseState "a" 100 100).1 = .error .InsufficientCollateralRatio ∧
    (borrow baseState "a" 100 100).2.ir_state ≠ baseState.ir_state ∧
    (borrow baseState "a" 100 100).2.suspicious_count ≠ baseState.suspicious_count := by
  refine ⟨rfl, by decide, by decide⟩

/-- C3 witness: at a concrete state both rejected calls leave the position
store untouched, while the failing borrow increments the suspicious counter
and the failing withdraw does not. -/
theorem c3_failing_borrow_withdraw_state_witness :
    (borrow c3State "w" 100 7).1 = .error .InsufficientCollateralRatio ∧
    (borrow c3State "w" 100 7).2.positions "w" = c3State.positions "w" ∧
    (borrow c3State "w" 100 7).2.suspicious_count = c3State.suspicious_count + 1 ∧
    (withdraw c3State "w" 60 7).1 = .error .InsufficientCollateralRatio ∧
    (withdraw c3State "w" 60 7).2.positions "w" = c3State.positions "w" ∧
    (withdraw c3State "w" 60 7).2.suspicious_count = c3State.suspicious_count := by
  have h := c3_failing_borrow_withdraw_state c3State "w" 100 60 7 rfl (by decide) rfl rfl
  have hb := h.1 (by decide) rfl _ _ rfl rfl (by decide)
  have hw := h.2 (by decide) rfl _ _ rfl (by decide) rfl (by decide) (by decide)
  refine ⟨hb.1, ?_, ?_, hw.1, ?_, ?_⟩
  · rw [hb.2]
  · rw [hb.2]
  · rw [hw.2]
  · rw [hw.2]

/-- Position matching the specification's liquidation vectors: debt 800,
collateral 100. -/
def liqPosition : Position :=
  { user := "b"
    collateral := 100
    debt := 800
    borrow_interest := 0
    supply_interest := 0
    last_accrual_time := 0 }

/-- State holding liqPosition under a risk configuration with close factor
30 percent and liquidation incentive 20 percent, and 1000 total
borrowed. -/
def liqState : ProtocolState :=
  { baseState with
    positions := fun u => if u = "b" then some liqPosition else none
    risk_config := { RiskConfig.default with
      close_factor := 30000000
      liquidation_incentive := 20000000 }
    ir_state := { InterestRateState.initial with total_borrowed := 1000 } }

/-- C1 witness: the specification's own vectors.  With debt 800 and close
factor 30 percent, a requested 500 repays min(500, 800, 240) = 240 leaving
debt 560; with incentive 20 percent the seizure 240 + 48 is capped by the
collateral 100, leaving collateral 0; total_borrowed falls 1000 to 760. -/
theorem c1_liquidate_math_witness :
    (liquidate liqState "l" "b" 500 0).1 = .ok () ∧
    (liquidate liqState "l" "b" 500 0).2.positions "b" =
      some { user := "b", collateral := 0, debt := 560, borrow_interest := 0,
             supply_interest := 0, last_accrual_time := 0 } ∧
    (liquidate liqState "l" "b" 500 0).2.ir_state.total_borrowed = 760 := by
  have h := (c1_liquidate_math liqState "l" "b" 500 0 liqPosition liqPosition
    (dynamic_ratio_oracle (accrue_position_state liqState liqPosition 0).1 liqPosition 0)
    (by decide) (by decide) (by decide) rfl rfl rfl (by decide) rfl
    (by decide) rfl).2 (by decide)
  refine ⟨h.1, ?_, ?_⟩
  · rw [h.2.1]
    decide
  · rw [h.2.2]
    decide

theorem apply_admin_op_ne_nil (admins : List String) (op : AdminOp)
    (h : admins ≠ []) : apply_admin_op admins op ≠ [] := by
  cases op with
  | add c n =>
    unfold apply_admin_op add_admin
    dsimp only []
    split
    · next s2 heq =>
      split at heq
      · exact absurd heq (by simp)
      · split at heq
        · exact absurd heq (by simp)
        · cases heq
          simp
    · exact h
  | remove c t =>
    unfold apply_admin_op remove_admin
    dsimp only []
    split
    · next s2 heq =>
      split at heq
      · exact absurd heq (by simp)
      · split at heq
        · exact absurd heq (by simp)
        · split at heq
          · exact absurd heq (by simp)
          · next hc ht hlen =>
            cases heq
            have hmem : t ∈ admins := by simpa using ht
            have hle : (admins.erase t).length = admins.length - 1 :=
              List.length_erase_of_mem hmem
            have hpos : admins.length ≠ 0 := by
              simpa using fun hz => h (List.length_eq_zero.mp hz)
            intro hnil
            have hz := congrArg List.length hnil
            simp only [List.length_nil] at hz
            omega
    · exact h
  | transfer c n =>
    unfold apply_admin_op transfer_admin
    dsimp only []
    split
    · next s2 heq =>
      split at heq
      · exact absurd heq (by simp)
      · cases heq
        simp
    · exact h

theorem run_admin_ops_ne_nil (admins : List String) (ops : List AdminOp)
    (h : admins ≠ []) : run_admin_ops admins ops ≠ [] := by
  induction ops generalizing admins with
  | nil => exact h
  | cons head tail ih =>
    exact ih (apply_admin_op admins head) (apply_admin_op_ne_nil admins head h)

/-- C6.  Starting from a non-empty admin set, the stored set is still
non-empty after any sequence of add_admin, remove_admin and transfer_admin
calls (each failed call leaving the set unchanged); moreover, for an
admin caller, remove_admin answers NotFound on an absent target and
InvalidOperation when the set has exactly one member and the target is
present, and transfer_admin replaces the first occurrence of the caller by
the new address, preserving the size of the set, which in particular stays
non-empty. -/
theorem c6_admin_set_never_empty (admins : List String) (ops : List AdminOp)
    (caller target new_admin : String) (h : admins ≠ []) :
    run_admin_ops admins ops ≠ [] ∧
    (admins.contains caller = true →
      (admins.contains target = false →
        remove_admin admins caller target = .error .NotFound) ∧
      (admins.contains target = true → admins.length = 1 →
        remove_admin admins caller target = .error .InvalidOperation) ∧
      transfer_admin admins caller new_admin = .ok (admins.erase caller ++ [new_admin]) ∧
      (admins.erase caller ++ [new_admin]).length = admins.length ∧
      admins.erase caller ++ [new_admin] ≠ []) := by
  refine ⟨run_admin_ops_ne_nil admins ops h, ?_⟩
  intro hc
  refine ⟨?_, ?_, ?_, ?_, by simp⟩
  · intro ht
    unfold remove_admin
    rw [if_neg (by simpa using hc), if_pos (by simpa using ht)]
  · intro ht hlen
    unfold remove_admin
    rw [if_neg (by simpa using hc), if_neg (by simpa using ht), if_pos hlen]
  · unfold transfer_admin
    rw [if_neg (by simpa using hc), if_neg (by simpa using hc)]
  · have hmem : caller ∈ admins := by simpa using hc
    have hlen1 : admins.length ≠ 0 := by
      simpa using fun hz => h (List.length_eq_zero.mp hz)
    rw [List.length_append, List.length_erase_of_mem hmem]
    simp only [List.length_cons, List.length_nil]
    omega

/-- C6 witness: concrete admin sets; a three-call sequence leaves a
non-empty set, an absent target is NotFound, removing the sole admin is
InvalidOperation, and transfer swaps the caller for the new address. -/
theorem c6_admin_set_never_empty_witness :
    run_admin_ops ["a", "b"]
      [AdminOp.add "a" "c", AdminOp.remove "c" "a", AdminOp.transfer "b" "d"] ≠ [] ∧
    remove_admin ["a", "b"] "a" "x" = .error .NotFound ∧
    remove_admin ["z"] "z" "z" = .error .InvalidOperation ∧
    transfer_admin ["a", "b"] "a" "c" = .ok ["b", "c"] := by
  have h1 := c6_admin_set_never_empty ["a", "b"]
    [AdminOp.add "a" "c", AdminOp.remove "c" "a", AdminOp.transfer "b" "d"]
    "a" "x" "c" (by decide)
  have h2 := c6_admin_set_never_empty ["z"] [] "z" "z" "y" (by decide)
  refine ⟨h1.1, (h1.2 (by decide)).1 (by decide),
    (h2.2 (by decide)).2.1 (by decide) (by decide), ?_⟩
  have h3 := (h1.2 (by decide)).2.2.1
  rw [h3]
  exact congrArg Except.ok (by decide)

/-- C7.  get_price returns the fallback price, storing nothing, when no
oracle is configured; with an oracle configured, the first fetched price
(no price stored yet, stored price still 0) is always accepted and stored
with the current timestamp; a later fetched price whose deviation from the
last stored price exceeds max_price_deviation is rejected - the fallback is
returned and the stored price and timestamp are unchanged - and one within
the bound is accepted and stored with the current timestamp. -/
theorem c7_get_price_behavior (s : OracleState) (now : Nat) :
    (s.oracle_configured = false → get_price s now = (s.fallback_price, s)) ∧
    (s.oracle_configured = true → s.last_price = 0 →
      get_price s now =
        (simulated_price now,
          { s with last_price := simulated_price now, last_update := now })) ∧
    (s.oracle_configured = true → s.last_price ≠ 0 →
      price_deviation s.last_price (simulated_price now) > s.max_price_deviation →
      get_price s now = (s.fallback_price, s)) ∧
    (s.oracle_configured = true → s.last_price ≠ 0 →
      price_deviation s.last_price (simulated_price now) ≤ s.max_price_deviation →
      get_price s now =
        (simulated_price now,
          { s with last_price := simulated_price now, last_update := now })) := by
  refine ⟨?_, ?_, ?_, ?_⟩
  · intro h
    unfold get_price
    rw [if_pos (by simp [h])]
  · intro h h0
    unfold get_price
    rw [if_neg (by simp [h]), if_neg (by simp [validate_price, h0])]
  · intro h h0 hdev
    unfold get_price
    rw [if_neg (by simp [h]), if_pos (by simp [validate_price, h0]; omega)]
  · intro h h0 hdev
    unfold get_price
    rw [if_neg (by simp [h]), if_neg (by simp [validate_price, h0, hdev])]

/-- Oracle state with no oracle configured and source-default deviation
bound and fallback. -/
def oracleOff : OracleState :=
  { oracle_configured := false
    last_price := 0
    last_update := 0
    max_price_deviation := 50
    fallback_price := 150000000 }

/-- Same oracle state but configured, before any stored price. -/
def oracleFirst : OracleState :=
  { oracleOff with oracle_configured := true }

/-- Configured oracle whose last stored price 1e7 is far from the fetched
price (deviation well above 50 percent). -/
def oracleFar : OracleState :=
  { oracleFirst with last_price := 10000000 }

/-- Configured oracle whose last stored price 1.9e8 is within the deviation
bound of the fetched price. -/
def oracleNear : OracleState :=
  { oracleFirst with last_price := 190000000 }

/-- C7 witness: the four branches at timestamp 5, where the fetched price
is 200050000: fallback 150000000 without an oracle; first price accepted
and stored; price rejected against last price 1e7 (deviation 1900 percent)
leaving the store unchanged; price accepted against last price 1.9e8
(deviation 5 percent) and stored with timestamp 5. -/
theorem c7_get_price_behavior_witness :
    get_price oracleOff 5 = (150000000, oracleOff) ∧
    get_price oracleFirst 5 =
      (200050000, { oracleFirst with last_price := 200050000, last_update := 5 }) ∧
    get_price oracleFar 5 = (150000000, oracleFar) ∧
    get_price oracleNear 5 =
      (200050000, { oracleNear with last_price := 200050000, last_update := 5 }) := by
  refine ⟨(c7_get_price_behavior oracleOff 5).1 rfl, ?_, ?_, ?_⟩
  · have h := (c7_get_price_behavior oracleFirst 5).2.1 rfl rfl
    rw [h]
    decide
  · exact (c7_get_price_behavior oracleFar 5).2.2.1 rfl (by decide) (by decide)
  · have h := (c7_get_price_behavior oracleNear 5).2.2.2 rfl (by decide) (by decide)
    rw [h]
    decide

/-- C8.  An admin approval of a Pending proposal attempted strictly after
its expires_at marks the stored proposal Cancelled and fails with
InvalidOperation, leaving the active configuration and the version counter
untouched; approving or rejecting a proposal whose status is not Pending
fails with InvalidOperation and leaves the whole governance state exactly
unchanged, so Pending is the only status from which any transition occurs;
and rejection never consults the clock at all (reject_proposal takes no
timestamp), so expiry is enforced only at approval time. -/
theorem c8_proposal_lifecycle (g : GovState) (admin : String) (pid : Nat) (now : Nat)
    (prop : ConfigurationProposal)
    (hp : g.proposals pid = some prop) (hid : prop.proposal_id = pid) :
    (prop.status = ProposalStatus.Pending → now > prop.expires_at →
      (approve_proposal g true admin pid now).1 = .error .InvalidOperation ∧
      (approve_proposal g true admin pid now).2.proposals pid =
        some { prop with status := ProposalStatus.Cancelled } ∧
      (approve_proposal g true admin pid now).2.current_config = g.current_config ∧
      (approve_proposal g true admin pid now).2.version_counter = g.version_counter) ∧
    (prop.status ≠ ProposalStatus.Pending →
      approve_proposal g true admin pid now = (.error .InvalidOperation, g) ∧
      reject_proposal g true pid = (.error .InvalidOperation, g)) ∧
    (prop.status = ProposalStatus.Pending →
      (reject_proposal g true pid).1 = .ok () ∧
      (reject_proposal g true pid).2.proposals pid =
        some { prop with status := ProposalStatus.Rejected }) := by
  refine ⟨?_, ?_, ?_⟩
  · intro hpend hexp
    unfold approve_proposal save_proposal
    rw [if_neg (by simp), hp]
    dsimp only []
    rw [if_neg (by simp [hpend]), if_pos hexp]
    refine ⟨rfl, ?_, rfl, rfl⟩
    dsimp only []
    rw [if_pos hid.symm]
  · intro hnp
    constructor
    · unfold approve_proposal
      rw [if_neg (by simp), hp]
      dsimp only []
      rw [if_pos hnp]
    · unfold reject_proposal
      rw [if_neg (by simp), hp]
      dsimp only []
      rw [if_pos hnp]
  · intro hpend
    unfold reject_proposal save_proposal
    rw [if_neg (by simp), hp]
    dsimp only []
    rw [if_neg (by simp [hpend])]
    refine ⟨rfl, ?_⟩
    dsimp only []
    rw [if_pos hid.symm]

/-- A valid protocol configuration built from the source defaults. -/
def sampleConfig : ProtocolConfiguration :=
  { version :=
      { version := 1, created_at := 0, created_by := "a", description := "init", is_active := true }
    interest_config := InterestRateConfig.default
    risk_config := RiskConfig.default
    oracle_config := { max_deviation := 50, heartbeat := 3600, fallback_price := 150000000 }
    protocol_params :=
      { min_collateral_ratio := 150, distribution_frequency := 86400, max_assets := 10 }
    asset_configs := [] }

/-- A Pending proposal with id 1 expiring at time 100. -/
def pendingProposal : ConfigurationProposal :=
  { proposal_id := 1
    proposed_config := sampleConfig
    current_version := 1
    created_at := 0
    created_by := "a"
    status := ProposalStatus.Pending
    description := "p1"
    expires_at := 100 }

/-- Governance state holding the Pending proposal 1 and a Rejected
proposal 2. -/
def govState : GovState :=
  { proposals := fun i =>
      if i = 1 then some pendingProposal
      else if i = 2 then some { pendingProposal with proposal_id := 2, status := ProposalStatus.Rejected }
      else none
    current_config := some sampleConfig
    version_counter := 1 }

/-- C8 witness: approving proposal 1 at time 101 (past expiry 100)
cancels it without touching the active configuration; approving or
rejecting the already-Rejected proposal 2 fails and changes nothing;
rejecting proposal 1 succeeds even at a state where it is already
expired. -/
theorem c8_proposal_lifecycle_witness :
    (approve_proposal govState true "a" 1 101).1 = .error .InvalidOperation ∧
    (approve_proposal govState true "a" 1 101).2.proposals 1 =
      some { pendingProposal with status := ProposalStatus.Cancelled } ∧
    (approve_proposal govState true "a" 1 101).2.current_config = some sampleConfig ∧
    (approve_proposal govState true "a" 2 101).1 = .error .InvalidOperation ∧
    (reject_proposal govState true 2).1 = .error .InvalidOperation ∧
    (reject_proposal govState true 1).1 = .ok () ∧
    (reject_proposal govState true 1).2.proposals 1 =
      some { pendingProposal with status := ProposalStatus.Rejected } := by
  have h1 := c8_proposal_lifecycle govState "a" 1 101 pendingProposal rfl rfl
  have h2 := c8_proposal_lifecycle govState "a" 2 101
    { pendingProposal with proposal_id := 2, status := ProposalStatus.Rejected } rfl rfl
  have ha := h1.1 rfl (by decide)
  have hr := h1.2.2 rfl
  have hn := h2.2.1 (by decide)
  exact ⟨ha.1, ha.2.1, ha.2.2.1, congrArg Prod.fst hn.1, congrArg Prod.fst hn.2,
    hr.1, hr.2⟩

/-- C9 witness: a freshly created position with debt 7 and collateral 3 is
unchanged by an accrual at timestamp 1000000 with nonzero rates. -/
theorem c9_zero_accrual_time_never_accrues_witness :
    (Position.new "u" 3 7).last_accrual_time = 0 ∧
    InterestRateManager.accrue_interest_for_position 1000000 (Position.new "u" 3 7)
        2000000 100000 = Position.new "u" 3 7 := by
  have h := c9_zero_accrual_time_never_accrues "u" 3 7 1000000 (Position.new "u" 3 7)
    2000000 100000 rfl
  exact ⟨h.1, h.2.1⟩

end StellarLend
